import Mathlib

/-!
Verification development for the Mutual dating app's
Matching & Active-Conversation subsystem.

The definitions below are a shallow embedding of the relevant source:
  * `supabase/schema.sql` — tables `swipes`, `matches`, `messages`,
    `profiles.active_match_id`, the trigger function
    `check_and_create_match`, and the row-level-security (RLS) policies
    that filter updates;
  * `src/hooks/useMatches.js` — `activateMatch`, `endMatch`, and the
    per-match `unreadCount` projection of `fetchMatches`;
  * `src/hooks/useChat.js` — `sendMessage`, `fetchMessages` (message
    listing and the mark-as-read pass).

User, match and message identifiers are modelled as `Nat` (UUIDs with
their total order), timestamps as `Nat`.  Database writes that SQL would
abort (unique-constraint or check-constraint violations) are modelled
with `Except`: an `error` result means the transaction aborted and the
database is unchanged.
-/

namespace Mutual

/-- Swipe direction: the `direction IN ('like','pass')` check of the
`swipes` table. -/
inductive Direction where
  | like
  | pass
deriving DecidableEq, Repr

/-- Match status: the `status IN ('pending','active','ended')` check of
the `matches` table. -/
inductive Status where
  | pending
  | active
  | ended
deriving DecidableEq, Repr

/-- A row of the `swipes` table (id and created_at omitted: they are
never read by the core logic). -/
structure Swipe where
  swiper : Nat
  swiped : Nat
  direction : Direction
deriving DecidableEq, Repr

/-- A row of the `matches` table (created_at/updated_at omitted). -/
structure MatchRow where
  id : Nat
  user1 : Nat
  user2 : Nat
  status : Status
deriving DecidableEq, Repr

/-- A row of the `messages` table. -/
structure Message where
  id : Nat
  matchId : Nat
  sender : Nat
  content : String
  createdAt : Nat
  readAt : Option Nat
deriving DecidableEq, Repr

/-- The one profile field the core reads and writes:
`profiles.active_match_id`. -/
structure Profile where
  id : Nat
  activeMatchId : Option Nat
deriving DecidableEq, Repr

/-- The persistent state the core operates on: the four tables of the
schema, plus counters standing in for fresh-UUID generation. -/
structure DB where
  profiles : List Profile
  swipes : List Swipe
  matchRows : List MatchRow
  messages : List Message
  nextMatchId : Nat
  nextMessageId : Nat
deriving DecidableEq, Repr

/-- `active_match_id` of the profile row with the given id, `null` when
the row is absent. -/
def ptrOf (ps : List Profile) (uid : Nat) : Option Nat :=
  match ps.find? (fun p => p.id == uid) with
  | some p => p.activeMatchId
  | none => none

/-- `profiles.active_match_id` of a user, read through the row lookup. -/
def activePtr (db : DB) (uid : Nat) : Option Nat :=
  ptrOf db.profiles uid

/-- `UPDATE profiles SET active_match_id = v WHERE id = uid` — the
pointer write shared by `activateMatch` (v = the new match id) and
`endMatch` (v = null). -/
def setActivePtr (ps : List Profile) (uid : Nat) (v : Option Nat) : List Profile :=
  ps.map (fun p => if p.id == uid then { p with activeMatchId := v } else p)

/-- `auth.uid() = user1_id OR auth.uid() = user2_id` — the participant
test used by every RLS policy on `matches` and `messages`. -/
def isParticipant (uid : Nat) (m : MatchRow) : Bool :=
  m.user1 == uid || m.user2 == uid

/-- Row lookup `matches WHERE id = mid` (`.eq('id', matchId)` /
`.single()` in the hooks). -/
def findMatch (db : DB) (mid : Nat) : Option MatchRow :=
  db.matchRows.find? (fun m => m.id == mid)

/-- Errors with which a swipe INSERT can abort: the
`UNIQUE(swiper_id, swiped_id)` constraint of `swipes`, or the
`ordered_users CHECK (user1_id < user2_id)` constraint of `matches`
raised from inside the `check_and_create_match` trigger. -/
inductive SwipeError where
  | duplicateSwipe
  | orderedUsersCheckViolation
deriving DecidableEq, Repr

/-- The `SELECT EXISTS` of `check_and_create_match`: does a swipe
`swiper_id = s.swiped AND swiped_id = s.swiper AND direction = 'like'`
exist?  (The trigger is AFTER INSERT, so it runs against the table with
the new row already present.) -/
def hasReciprocalLike (swipes : List Swipe) (s : Swipe) : Bool :=
  swipes.any (fun t =>
    t.swiper == s.swiped && t.swiped == s.swiper && t.direction == Direction.like)

/-- `SELECT 1 FROM matches WHERE user1_id = u1 AND user2_id = u2` — the
target of the `ON CONFLICT (user1_id, user2_id)` clause. -/
def matchExistsFor (rows : List MatchRow) (u1 u2 : Nat) : Bool :=
  rows.any (fun m => m.user1 == u1 && m.user2 == u2)

/-- The body of the trigger function `check_and_create_match`
(schema.sql): on a `like` swipe, if the reciprocal like exists, order
the pair and insert a `pending` match, ignoring a duplicate-pair
conflict.  Inserting a pair that violates `CHECK (user1_id < user2_id)`
raises, aborting the enclosing INSERT. -/
def checkAndCreateMatch (swipes : List Swipe) (rows : List MatchRow)
    (nextId : Nat) (s : Swipe) : Except SwipeError (List MatchRow × Nat) :=
  if s.direction ≠ Direction.like then
    Except.ok (rows, nextId)
  else if hasReciprocalLike swipes s then
    let u1 := if s.swiper < s.swiped then s.swiper else s.swiped
    let u2 := if s.swiper < s.swiped then s.swiped else s.swiper
    if u1 < u2 then
      if matchExistsFor rows u1 u2 then
        Except.ok (rows, nextId)
      else
        Except.ok (rows ++ [⟨nextId, u1, u2, Status.pending⟩], nextId + 1)
    else
      Except.error SwipeError.orderedUsersCheckViolation
  else
    Except.ok (rows, nextId)

/-- INSERT INTO swipes (the `swipe` callbacks of useLikes.js /
useDiscovery.js): rejected by `UNIQUE(swiper_id, swiped_id)` if the
ordered pair was already swiped, then the AFTER INSERT trigger
`check_and_create_match` runs; a trigger error aborts the whole
statement. -/
def recordSwipe (db : DB) (s : Swipe) : Except SwipeError DB :=
  if db.swipes.any (fun t => t.swiper == s.swiper && t.swiped == s.swiped) then
    Except.error SwipeError.duplicateSwipe
  else
    let swipes' := db.swipes ++ [s]
    match checkAndCreateMatch swipes' db.matchRows db.nextMatchId s with
    | Except.error e => Except.error e
    | Except.ok (ms, nid) =>
        Except.ok { db with swipes := swipes', matchRows := ms, nextMatchId := nid }

/-- The database state after a swipe attempt: unchanged when the INSERT
aborted. -/
def recordSwipeState (db : DB) (s : Swipe) : DB :=
  match recordSwipe db s with
  | Except.ok db' => db'
  | Except.error _ => db

/-- `UPDATE matches SET status = st WHERE id = mid`, filtered by the RLS
policy "Users can update their own matches": only rows where `uid` is a
participant are affected; non-matching rows are silently skipped (zero
rows updated is not an error). -/
def rlsUpdateStatus (rows : List MatchRow) (uid mid : Nat) (st : Status) :
    List MatchRow :=
  rows.map (fun m =>
    if m.id == mid && isParticipant uid m then { m with status := st } else m)

/-- Errors of `activateMatch`: the only write that can fail is the
profile update, whose `fk_active_match` foreign key requires the new
`active_match_id` to reference an existing match row. -/
inductive ActivateError where
  | fkViolation
deriving DecidableEq, Repr

/-- Step 1 of `activateMatch`: the matches table after the demotion of
the requester's previously active match (a no-op when the pointer is
null or already equals the target). -/
def demotedRows (db : DB) (uid matchId : Nat) : List MatchRow :=
  match activePtr db uid with
  | some old => if old ≠ matchId then rlsUpdateStatus db.matchRows uid old Status.pending
                else db.matchRows
  | none => db.matchRows

/-- Steps 1–2 of `activateMatch`: the matches table after demotion of
the old match and promotion of the target to `'active'`. -/
def activateRows (db : DB) (uid matchId : Nat) : List MatchRow :=
  rlsUpdateStatus (demotedRows db uid matchId) uid matchId Status.active

/-- `activateMatch(matchId)` from useMatches.js, acting for user `uid`:
1. if the user's `active_match_id` is set and differs from `matchId`,
   set that match's status to `'pending'`;
2. set the target match's status to `'active'`;
3. set the user's `active_match_id` to `matchId`.
Each matches-table UPDATE is RLS-filtered; the function performs no
participant check of its own and no check on the current status. -/
def activateMatch (db : DB) (uid matchId : Nat) : Except ActivateError DB :=
  let ms2 := activateRows db uid matchId
  if ms2.any (fun m => m.id == matchId) then
    Except.ok { db with
      matchRows := ms2,
      profiles := setActivePtr db.profiles uid (some matchId) }
  else
    Except.error ActivateError.fkViolation

/-- The database state after an activation attempt (unchanged on
abort). -/
def activateState (db : DB) (uid matchId : Nat) : DB :=
  match activateMatch db uid matchId with
  | Except.ok db' => db'
  | Except.error _ => db

/-- `endMatch(matchId)` from useMatches.js, acting for user `uid`: set
the match's status to `'ended'` (RLS-filtered) and clear the user's
`active_match_id` if it pointed at this match. -/
def endMatch (db : DB) (uid matchId : Nat) : DB :=
  let ms := rlsUpdateStatus db.matchRows uid matchId Status.ended
  let ps :=
    if activePtr db uid == some matchId then setActivePtr db.profiles uid none
    else db.profiles
  { db with matchRows := ms, profiles := ps }

/-- JS `content.trim()` (used by `sendMessage`), modelled directly on
the string's characters: strip leading and trailing whitespace.
(`String.trim` of the Lean library is extensionally the same but is not
kernel-reducible, so the model spells the computation out.) -/
def jsTrim (s : String) : String :=
  ⟨((s.data.dropWhile Char.isWhitespace).reverse.dropWhile Char.isWhitespace).reverse⟩

/-- Errors `sendMessage` returns to its caller: `'Invalid message'` for
missing/blank content, `'This conversation is not active'` when the
loaded match's status is not `'active'`. -/
inductive SendError where
  | invalidMessage
  | matchNotActive
deriving DecidableEq, Repr

/-- The `match` state of useChat.js as `fetchMatchDetails` leaves it:
the row fetched by id, but `null` when the requesting user is not one
of the two participants (the hook throws "You are not part of this
match" before `setMatch`). -/
def loadedMatch (db : DB) (uid matchId : Nat) : Option MatchRow :=
  match findMatch db matchId with
  | some m => if isParticipant uid m then some m else none
  | none => none

/-- `sendMessage(content)` from useChat.js, acting for user `uid` on
match `matchId` at time `now`:
1. blank (after trim) content → `'Invalid message'`;
2. `match?.status !== 'active'` → `'This conversation is not active'`
   (also the path taken when the match failed to load because the user
   is not a participant);
3. otherwise INSERT the trimmed content into `messages` (the RLS insert
   policy — sender is a participant — is satisfied on this path). -/
def sendMessage (db : DB) (uid matchId : Nat) (content : String) (now : Nat) :
    Except SendError DB :=
  if jsTrim content = "" then
    Except.error SendError.invalidMessage
  else
    match loadedMatch db uid matchId with
    | some m =>
        if m.status = Status.active then
          Except.ok { db with
            messages := db.messages ++
              [⟨db.nextMessageId, matchId, uid, jsTrim content, now, none⟩],
            nextMessageId := db.nextMessageId + 1 }
        else
          Except.error SendError.matchNotActive
    | none => Except.error SendError.matchNotActive

/-- The database state after a send attempt (unchanged on failure). -/
def sendState (db : DB) (uid matchId : Nat) (content : String) (now : Nat) : DB :=
  match sendMessage db uid matchId content now with
  | Except.ok db' => db'
  | Except.error _ => db

/-- The mark-as-read pass of `fetchMessages` (useChat.js): every message
of the match whose sender is not the reader and whose `read_at` is null
gets `read_at` set to now; all other rows are untouched. -/
def markRead (msgs : List Message) (matchId readerId now : Nat) : List Message :=
  msgs.map (fun m =>
    if m.matchId == matchId && m.sender != readerId && m.readAt == none then
      { m with readAt := some now }
    else m)

/-- `messages WHERE match_id = mid` — the rows the listing query ranges
over. -/
def matchMessages (db : DB) (mid : Nat) : List Message :=
  db.messages.filter (fun m => m.matchId == mid)

/-- The comparison `ORDER BY created_at ASC` sorts by. -/
def msgLE (a b : Message) : Prop := a.createdAt ≤ b.createdAt

instance : DecidableRel msgLE := fun a b => Nat.decLe a.createdAt b.createdAt

instance : IsTotal Message msgLE := ⟨fun a b => Nat.le_total a.createdAt b.createdAt⟩

instance : IsTrans Message msgLE := ⟨fun _ _ _ => Nat.le_trans⟩

/-- A deterministic refinement of the listing query of `fetchMessages`
(useChat.js): the match's messages sorted by `created_at`. -/
def fetchMessages (db : DB) (mid : Nat) : List Message :=
  List.insertionSort msgLE (matchMessages db mid)

/-- What `ORDER BY created_at ASC` actually guarantees about a returned
row list: it is some permutation of the match's messages that is
non-decreasing in `created_at`.  SQL fixes nothing further — rows with
equal `created_at` may come back in any order, since the query names no
secondary sort key. -/
def isMessageListing (db : DB) (mid : Nat) (out : List Message) : Prop :=
  out.Perm (matchMessages db mid) ∧ List.Sorted msgLE out

instance (db : DB) (mid : Nat) (out : List Message) :
    Decidable (isMessageListing db mid out) :=
  inferInstanceAs (Decidable (out.Perm (matchMessages db mid) ∧ List.Sorted msgLE out))

/-- The unread-count projection of `fetchMatches` (useMatches.js):
`COUNT(*)` of messages with `match_id = mid`, `sender_id <> uid`,
`read_at IS NULL`. -/
def unreadCount (db : DB) (mid uid : Nat) : Nat :=
  (db.messages.filter (fun m =>
    m.matchId == mid && m.sender != uid && m.readAt == none)).length

/-- Match rows have pairwise distinct ids (true of the real table, whose
`id` column is a primary key). -/
def uniqueMatchIds (rows : List MatchRow) : Prop :=
  (rows.map MatchRow.id).Nodup

instance (rows : List MatchRow) : Decidable (uniqueMatchIds rows) :=
  List.nodupDecidable (rows.map MatchRow.id)

/-- Among the matches a user's `active_match_id` references, how many
are `Active` — the quantity bounded by the one-active-match invariant. -/
def activeReferencedCount (db : DB) (uid : Nat) : Nat :=
  (db.matchRows.filter (fun m =>
    activePtr db uid == some m.id && m.status == Status.active)).length

/-- A sequence of `activate` calls `(uid, matchId)`, applied left to
right. -/
def applyActivates (db : DB) : List (Nat × Nat) → DB
  | [] => db
  | c :: cs => applyActivates (activateState db c.1 c.2) cs

section Helpers

lemma rlsUpdateStatus_map_id (rows : List MatchRow) (uid mid : Nat) (st : Status) :
    (rlsUpdateStatus rows uid mid st).map MatchRow.id = rows.map MatchRow.id := by
  unfold rlsUpdateStatus
  rw [List.map_map]
  refine List.map_congr_left ?_
  intro m _
  simp only [Function.comp_apply]
  split <;> rfl

lemma mem_rlsUpdateStatus {rows : List MatchRow} {uid mid : Nat} {st : Status}
    {m' : MatchRow} (h : m' ∈ rlsUpdateStatus rows uid mid st) :
    ∃ m ∈ rows,
      m' = if m.id == mid && isParticipant uid m then { m with status := st } else m := by
  obtain ⟨m, hm, he⟩ := List.mem_map.mp h
  exact ⟨m, hm, he.symm⟩

lemma rlsUpdateStatus_id_preserved (uid mid : Nat) (st : Status) (m : MatchRow) :
    (if m.id == mid && isParticipant uid m then { m with status := st } else m).id
      = m.id := by
  split <;> rfl

lemma rlsUpdateStatus_participant_preserved (w uid mid : Nat) (st : Status)
    (m : MatchRow) :
    isParticipant w
        (if m.id == mid && isParticipant uid m then { m with status := st } else m)
      = isParticipant w m := by
  split <;> rfl

lemma rlsUpdateStatus_mem_image {rows : List MatchRow} {M : MatchRow} (hM : M ∈ rows)
    (uid mid : Nat) (st : Status) :
    (if M.id == mid && isParticipant uid M then { M with status := st } else M)
      ∈ rlsUpdateStatus rows uid mid st :=
  List.mem_map.mpr ⟨M, hM, rfl⟩

lemma eq_of_mem_of_id_eq {rows : List MatchRow} (hnd : uniqueMatchIds rows)
    {a b : MatchRow} (ha : a ∈ rows) (hb : b ∈ rows) (hid : a.id = b.id) : a = b :=
  List.inj_on_of_nodup_map hnd ha hb hid

/-- In a table with distinct ids, the row of `rlsUpdateStatus`'s output
carrying `M`'s id is exactly the (conditional) update of `M`. -/
lemma rlsUpdateStatus_at {rows : List MatchRow} (hnd : uniqueMatchIds rows)
    {M : MatchRow} (hM : M ∈ rows) (uid mid : Nat) (st : Status)
    {m' : MatchRow} (h : m' ∈ rlsUpdateStatus rows uid mid st) (hid : m'.id = M.id) :
    m' = if M.id == mid && isParticipant uid M then { M with status := st } else M := by
  obtain ⟨m, hm, rfl⟩ := mem_rlsUpdateStatus h
  have hid' : m.id = M.id := by
    rw [← rlsUpdateStatus_id_preserved uid mid st m]
    exact hid
  rw [eq_of_mem_of_id_eq hnd hm hM hid']

lemma uniqueMatchIds_rlsUpdateStatus {rows : List MatchRow}
    (hnd : uniqueMatchIds rows) (uid mid : Nat) (st : Status) :
    uniqueMatchIds (rlsUpdateStatus rows uid mid st) := by
  unfold uniqueMatchIds
  rw [rlsUpdateStatus_map_id]
  exact hnd

lemma demotedRows_map_id (db : DB) (uid tid : Nat) :
    (demotedRows db uid tid).map MatchRow.id = db.matchRows.map MatchRow.id := by
  unfold demotedRows
  cases activePtr db uid with
  | none => rfl
  | some old =>
      dsimp only
      by_cases h : old ≠ tid
      · rw [if_pos h, rlsUpdateStatus_map_id]
      · rw [if_neg h]

lemma activateRows_map_id (db : DB) (uid tid : Nat) :
    (activateRows db uid tid).map MatchRow.id = db.matchRows.map MatchRow.id := by
  unfold activateRows
  rw [rlsUpdateStatus_map_id, demotedRows_map_id]

lemma uniqueMatchIds_demotedRows {db : DB} (hnd : uniqueMatchIds db.matchRows)
    (uid tid : Nat) : uniqueMatchIds (demotedRows db uid tid) := by
  unfold uniqueMatchIds
  rw [demotedRows_map_id]
  exact hnd

/-- Every match row has an image in `demotedRows` with the same id and
the same participants. -/
lemma demotedRows_image {db : DB} {M : MatchRow} (hM : M ∈ db.matchRows)
    (uid tid w : Nat) :
    ∃ M₁ ∈ demotedRows db uid tid,
      M₁.id = M.id ∧ isParticipant w M₁ = isParticipant w M := by
  unfold demotedRows
  cases activePtr db uid with
  | none => exact ⟨M, hM, rfl, rfl⟩
  | some old =>
      dsimp only
      by_cases h : old ≠ tid
      · rw [if_pos h]
        exact ⟨_, rlsUpdateStatus_mem_image hM uid old Status.pending,
          rlsUpdateStatus_id_preserved uid old Status.pending M,
          rlsUpdateStatus_participant_preserved w uid old Status.pending M⟩
      · rw [if_neg h]
        exact ⟨M, hM, rfl, rfl⟩

/-- `activateMatch` succeeds whenever the target match id exists (the
foreign-key check on `active_match_id` passes), mutating the matches
table to `activateRows` and the profiles to the new pointer. -/
lemma activateMatch_ok {db : DB} {tid : Nat} (uid : Nat)
    (h : ∃ m ∈ db.matchRows, m.id = tid) :
    activateMatch db uid tid =
      Except.ok { db with matchRows := activateRows db uid tid,
                          profiles := setActivePtr db.profiles uid (some tid) } := by
  have hany : (activateRows db uid tid).any (fun m => m.id == tid) = true := by
    rw [List.any_eq_true]
    obtain ⟨M, hM, hid⟩ := h
    have hmem : tid ∈ (activateRows db uid tid).map MatchRow.id := by
      rw [activateRows_map_id]
      exact List.mem_map.mpr ⟨M, hM, hid⟩
    obtain ⟨m', hm', hid'⟩ := List.mem_map.mp hmem
    exact ⟨m', hm', by simp [hid']⟩
  unfold activateMatch
  simp only [hany, if_true]

lemma activateState_eq {db : DB} {tid : Nat} (uid : Nat)
    (h : ∃ m ∈ db.matchRows, m.id = tid) :
    activateState db uid tid =
      { db with matchRows := activateRows db uid tid,
                profiles := setActivePtr db.profiles uid (some tid) } := by
  unfold activateState
  rw [activateMatch_ok uid h]

/-- The promotion step: if `M` is a row of the table, the requester is a
participant of `M`, and ids are unique, then after `activate(M.id)` the
row carrying `M.id` is `Active`. -/
lemma activateRows_promotes {db : DB} {uid : Nat} {M : MatchRow}
    (hnd : uniqueMatchIds db.matchRows) (hM : M ∈ db.matchRows)
    (hp : isParticipant uid M = true) :
    ∀ m' ∈ activateRows db uid M.id, m'.id = M.id → m'.status = Status.active := by
  intro m' hm' hid
  obtain ⟨M₁, hM₁, hid₁, hp₁⟩ := demotedRows_image hM uid M.id uid
  have hnd₁ := uniqueMatchIds_demotedRows hnd uid M.id
  have := rlsUpdateStatus_at hnd₁ hM₁ uid M.id Status.active hm' (by rw [hid, hid₁])
  rw [this, if_pos (by simp [hid₁, hp₁, hp])]

/-- The demotion step: the row the requester's pointer referenced (a
match they participate in, with id ≠ the target) is `Pending` after
activation of another match. -/
lemma activateRows_demotes {db : DB} {uid tid old : Nat} {M₁ : MatchRow}
    (hnd : uniqueMatchIds db.matchRows)
    (hptr : activePtr db uid = some old) (hne : old ≠ tid)
    (hM₁ : M₁ ∈ db.matchRows) (hid₁ : M₁.id = old)
    (hp : isParticipant uid M₁ = true) :
    ∀ m' ∈ activateRows db uid tid, m'.id = old → m'.status = Status.pending := by
  intro m' hm' hid
  have hd : demotedRows db uid tid = rlsUpdateStatus db.matchRows uid old Status.pending := by
    unfold demotedRows
    rw [hptr]
    dsimp only
    rw [if_pos hne]
  have hnd₁ := uniqueMatchIds_demotedRows hnd uid tid
  have hMp : ({ M₁ with status := Status.pending } : MatchRow) ∈ demotedRows db uid tid := by
    rw [hd]
    have := rlsUpdateStatus_mem_image hM₁ uid old Status.pending
    rwa [if_pos (by simp [hid₁, hp])] at this
  have := rlsUpdateStatus_at hnd₁ hMp uid tid Status.active hm' (by simp [hid, hid₁])
  rw [this, if_neg (by simp [hid₁, hne])]

/-- A match none of whose participants is the requester is untouched by
the requester's `activate` call, whatever its target. -/
lemma activateRows_nonparticipant {db : DB} {uid : Nat} {M : MatchRow}
    (hnd : uniqueMatchIds db.matchRows) (hM : M ∈ db.matchRows)
    (hp : isParticipant uid M = false) (tid : Nat) :
    ∀ m' ∈ activateRows db uid tid, m'.id = M.id → m' = M := by
  intro m' hm' hid
  have hMd : M ∈ demotedRows db uid tid := by
    unfold demotedRows
    cases activePtr db uid with
    | none => exact hM
    | some old =>
        dsimp only
        by_cases h : old ≠ tid
        · rw [if_pos h]
          have := rlsUpdateStatus_mem_image hM uid old Status.pending
          rwa [if_neg (by simp [hp])] at this
        · rw [if_neg h]
          exact hM
  have hnd₁ := uniqueMatchIds_demotedRows hnd uid tid
  have := rlsUpdateStatus_at hnd₁ hMd uid tid Status.active hm' hid
  rw [this, if_neg (by simp [hp])]

lemma ptrOf_setActivePtr (ps : List Profile) (uid : Nat) (v : Option Nat)
    (h : ∃ p ∈ ps, p.id = uid) : ptrOf (setActivePtr ps uid v) uid = v := by
  induction ps with
  | nil => simp at h
  | cons a l ih =>
      by_cases ha : a.id = uid
      · unfold setActivePtr ptrOf
        rw [List.map_cons, if_pos (by simp [ha]), List.find?_cons_of_pos _ (by simp [ha])]
      · obtain ⟨p, hp, hpid⟩ := h
        rcases List.mem_cons.mp hp with rfl | hpl
        · exact absurd hpid ha
        · unfold setActivePtr ptrOf
          rw [List.map_cons, if_neg (by simp [ha]),
            List.find?_cons_of_neg _ (by simp [ha])]
          exact ih ⟨p, hpl, hpid⟩

lemma uniqueMatchIds_activateState {db : DB} (hnd : uniqueMatchIds db.matchRows)
    (uid tid : Nat) : uniqueMatchIds (activateState db uid tid).matchRows := by
  unfold activateState
  cases h : activateMatch db uid tid with
  | error e => exact hnd
  | ok db' =>
      have hrows : db'.matchRows = activateRows db uid tid := by
        simp only [activateMatch] at h
        split at h
        · injection h with h2
          rw [← h2]
        · exact absurd h (by simp)
      rw [hrows]
      unfold uniqueMatchIds
      rw [activateRows_map_id]
      exact hnd

lemma applyActivates_uniq {db : DB} (hnd : uniqueMatchIds db.matchRows) :
    ∀ calls : List (Nat × Nat), uniqueMatchIds (applyActivates db calls).matchRows := by
  intro calls
  induction calls generalizing db with
  | nil => exact hnd
  | cons c cs ih => exact ih (uniqueMatchIds_activateState hnd c.1 c.2)

lemma length_filter_id_le_one {rows : List MatchRow} (hnd : uniqueMatchIds rows)
    (x : Nat) : (rows.filter (fun m => x == m.id)).length ≤ 1 := by
  induction rows with
  | nil => simp
  | cons a l ih =>
      rw [uniqueMatchIds, List.map_cons, List.nodup_cons] at hnd
      obtain ⟨hna, hnl⟩ := hnd
      by_cases hax : x = a.id
      · rw [List.filter_cons_of_pos (by simp [hax])]
        have hnil : l.filter (fun m => x == m.id) = [] := by
          rw [List.filter_eq_nil_iff]
          intro m hm
          simp only [beq_iff_eq]
          intro hxm
          refine hna (List.mem_map.mpr ⟨m, hm, ?_⟩)
          rw [← hxm]
          exact hax
        simp [hnil]
      · rw [List.filter_cons_of_neg (by simp [hax])]
        exact ih hnl

/-- With unique match ids, at most one `Active` match can carry the id
the user's pointer references. -/
lemma activeReferencedCount_le_one {db : DB} (hnd : uniqueMatchIds db.matchRows)
    (uid : Nat) : activeReferencedCount db uid ≤ 1 := by
  unfold activeReferencedCount
  cases hp : activePtr db uid with
  | none => simp [hp]
  | some x =>
      calc (db.matchRows.filter (fun m =>
              some x == some m.id && m.status == Status.active)).length
          ≤ (db.matchRows.filter (fun m => x == m.id)).length := by
            refine List.Sublist.length_le (List.monotone_filter_right _ ?_)
            intro m hm
            simp only [Bool.and_eq_true, beq_iff_eq, Option.some_inj] at hm
            simp [hm.1]
        _ ≤ 1 := length_filter_id_le_one hnd x

lemma recordSwipe_ok_swipes {db db' : DB} {s : Swipe}
    (h : recordSwipe db s = Except.ok db') : db'.swipes = db.swipes ++ [s] := by
  simp only [recordSwipe] at h
  split at h
  · exact absurd h (by simp)
  · split at h
    · exact absurd h (by simp)
    · injection h with h2
      rw [← h2]

end Helpers

lemma trigger_ordered_min (x y : Nat) : (if x < y then x else y) = min x y := by
  by_cases h : x < y
  · rw [if_pos h, Nat.min_eq_left (Nat.le_of_lt h)]
  · rw [if_neg h, Nat.min_eq_right (Nat.le_of_not_lt h)]

lemma trigger_ordered_max (x y : Nat) : (if x < y then y else x) = max x y := by
  by_cases h : x < y
  · rw [if_pos h, Nat.max_eq_right (Nat.le_of_lt h)]
  · rw [if_neg h, Nat.max_eq_left (Nat.le_of_not_lt h)]

/-- Example database: users 1, 2, 3; match 10 (users 1–2) is `Active`
and is user 1's active match; match 11 (users 1–3) is `Pending`. -/
def dbTwo : DB :=
  ⟨[⟨1, some 10⟩, ⟨2, none⟩, ⟨3, none⟩], [],
   [⟨10, 1, 2, Status.active⟩, ⟨11, 1, 3, Status.pending⟩], [], 20, 0⟩

/-- Example database: a single `Ended` match 10 between users 1 and 2. -/
def dbEnded : DB :=
  ⟨[⟨1, none⟩, ⟨2, none⟩], [], [⟨10, 1, 2, Status.ended⟩], [], 20, 0⟩

/-- C1: for a user `U` whose pointer designates the `Active` match `M1`,
activating a different match `M2` (of theirs) demotes `M1` to `Pending`,
promotes `M2` to `Active`, and repoints `U.activeMatchId` at `M2`; and
after any sequence of `activate` calls at most one `Active` match
carries the id `U.activeMatchId` references. -/
theorem activate_switch_spec (db : DB) (U : Nat) (M1 M2 : MatchRow)
    (hnd : uniqueMatchIds db.matchRows)
    (hM1 : M1 ∈ db.matchRows) (hM2 : M2 ∈ db.matchRows)
    (hne : M1.id ≠ M2.id)
    (hp1 : isParticipant U M1 = true) (hp2 : isParticipant U M2 = true)
    (hptr : activePtr db U = some M1.id)
    (hact : M1.status = Status.active)
    (hprof : ∃ p ∈ db.profiles, p.id = U) :
    (∀ m' ∈ (activateState db U M2.id).matchRows, m'.id = M1.id →
        m'.status = Status.pending) ∧
    (∀ m' ∈ (activateState db U M2.id).matchRows, m'.id = M2.id →
        m'.status = Status.active) ∧
    activePtr (activateState db U M2.id) U = some M2.id ∧
    (∀ calls : List (Nat × Nat),
      activeReferencedCount (applyActivates db calls) U ≤ 1) := by
  have hex : ∃ m ∈ db.matchRows, m.id = M2.id := ⟨M2, hM2, rfl⟩
  have hst := activateState_eq U hex
  refine ⟨?_, ?_, ?_, ?_⟩
  · intro m' hm' hid
    rw [hst] at hm'
    exact activateRows_demotes hnd hptr hne hM1 rfl hp1 m' hm' hid
  · intro m' hm' hid
    rw [hst] at hm'
    exact activateRows_promotes hnd hM2 hp2 m' hm' hid
  · rw [hst]
    exact ptrOf_setActivePtr db.profiles U (some M2.id) hprof
  · intro calls
    exact activeReferencedCount_le_one (applyActivates_uniq hnd calls) U

/-- C1 witness: user 1 switches from active match 10 to match 11 in
`dbTwo`; the new pointer is match 11 and the invariant bound holds after
that call. -/
theorem activate_switch_spec_witness :
    activePtr (activateState dbTwo 1 11) 1 = some 11 ∧
    activeReferencedCount (applyActivates dbTwo [(1, 11)]) 1 ≤ 1 := by
  have h := activate_switch_spec dbTwo 1 ⟨10, 1, 2, Status.active⟩
    ⟨11, 1, 3, Status.pending⟩ (by decide) (by decide) (by decide) (by decide)
    (by decide) (by decide) rfl rfl ⟨⟨1, some 10⟩, by decide, rfl⟩
  exact ⟨h.2.2.1, h.2.2.2 [(1, 11)]⟩

/-- C3 counterexample: match 10 of `dbEnded` has status `Ended`, yet
after participant 1 calls `activate(10)` its status is `Active` — an
`Ended` match does leave the `Ended` state. -/
theorem ended_not_terminal_counterexample :
    (activateState dbEnded 1 10).matchRows = [⟨10, 1, 2, Status.active⟩] ∧
    Status.active ≠ Status.ended :=
  ⟨rfl, by decide⟩

/-- C3 (amended): `Ended` is not terminal in the code — `activateMatch`
never inspects the current status, so a participant activating an
`Ended` match transitions it to `Active`. -/
theorem activate_reactivates_ended (db : DB) (U : Nat) (M : MatchRow)
    (hnd : uniqueMatchIds db.matchRows) (hM : M ∈ db.matchRows)
    (hp : isParticipant U M = true) (hend : M.status = Status.ended) :
    ∀ m' ∈ (activateState db U M.id).matchRows, m'.id = M.id →
      m'.status = Status.active := by
  intro m' hm' hid
  have hst := activateState_eq U ⟨M, hM, rfl⟩
  rw [hst] at hm'
  exact activateRows_promotes hnd hM hp m' hm' hid

/-- C3 witness for the amended claim, at the ended match of `dbEnded`. -/
theorem activate_reactivates_ended_witness :
    (⟨10, 1, 2, Status.active⟩ : MatchRow) ∈ (activateState dbEnded 1 10).matchRows ∧
    (⟨10, 1, 2, Status.active⟩ : MatchRow).status = Status.active :=
  ⟨by decide,
   activate_reactivates_ended dbEnded 1 ⟨10, 1, 2, Status.ended⟩ (by decide)
     (by decide) (by decide) rfl ⟨10, 1, 2, Status.active⟩ (by decide) rfl⟩

/-- C5 counterexample: user 3 is not a participant of match 10 (between
1 and 2), yet `activateMatch` returns success — not
`Error(NotParticipant)` — leaving every match row unchanged and setting
user 3's own pointer to match 10. -/
theorem activate_nonparticipant_counterexample :
    activateMatch dbTwo 3 10 = Except.ok (activateState dbTwo 3 10) ∧
    (activateState dbTwo 3 10).matchRows = dbTwo.matchRows ∧
    activePtr (activateState dbTwo 3 10) 3 = some 10 :=
  ⟨rfl, rfl, rfl⟩

/-- C5 (amended): when a non-participant `C` calls `activate(M)`, `M`'s
status is indeed unchanged — but only because the RLS policy filters the
UPDATE down to zero rows.  The call is not rejected: it returns success
and repoints `C.activeMatchId` at the foreign match. -/
theorem activate_nonparticipant (db : DB) (C : Nat) (M : MatchRow)
    (hnd : uniqueMatchIds db.matchRows) (hM : M ∈ db.matchRows)
    (hp : isParticipant C M = false)
    (hprof : ∃ p ∈ db.profiles, p.id = C) :
    activateMatch db C M.id = Except.ok (activateState db C M.id) ∧
    (∀ m' ∈ (activateState db C M.id).matchRows, m'.id = M.id → m' = M) ∧
    activePtr (activateState db C M.id) C = some M.id := by
  have hex : ∃ m ∈ db.matchRows, m.id = M.id := ⟨M, hM, rfl⟩
  have hst := activateState_eq C hex
  refine ⟨?_, ?_, ?_⟩
  · rw [activateMatch_ok C hex, hst]
  · intro m' hm' hid
    rw [hst] at hm'
    exact activateRows_nonparticipant hnd hM hp M.id m' hm' hid
  · rw [hst]
    exact ptrOf_setActivePtr db.profiles C (some M.id) hprof

/-- C5 witness for the amended claim: user 3 "activates" match 10 of
`dbTwo`. -/
theorem activate_nonparticipant_witness :
    activateMatch dbTwo 3 10 = Except.ok (activateState dbTwo 3 10) ∧
    activePtr (activateState dbTwo 3 10) 3 = some 10 := by
  have h := activate_nonparticipant dbTwo 3 ⟨10, 1, 2, Status.active⟩
    (by decide) (by decide) (by decide) ⟨⟨3, none⟩, by decide, rfl⟩
  exact ⟨h.1, h.2.2⟩

/-- Example database for message listing: match 10's messages 1 and 2
were inserted in this order and share `created_at = 5`. -/
def dbTie : DB :=
  ⟨[], [], [],
   [⟨1, 10, 1, "first", 5, none⟩, ⟨2, 10, 2, "second", 5, none⟩], 0, 3⟩

/-- C8 (amended): the listing of a match's messages is a permutation of
them that is non-decreasing in `created_at`; nothing more — the query
orders by `created_at` alone, so equal timestamps have no guaranteed
relative order. -/
theorem message_listing_sorted (db : DB) (mid : Nat) :
    (fetchMessages db mid).Perm (matchMessages db mid) ∧
    List.Sorted msgLE (fetchMessages db mid) :=
  ⟨List.perm_insertionSort msgLE (matchMessages db mid),
   List.sorted_insertionSort msgLE (matchMessages db mid)⟩

/-- C8 witness: the sorted listing of `dbTie`'s match 10. -/
theorem message_listing_sorted_witness :
    (fetchMessages dbTie 10).Perm (matchMessages dbTie 10) ∧
    List.Sorted msgLE (fetchMessages dbTie 10) :=
  message_listing_sorted dbTie 10

/-- C8 counterexample: in `dbTie`, the reversed-insertion order of the
two equal-timestamp messages is also a valid result of the listing
query (`ORDER BY created_at` names no secondary key), refuting the
claim that ties are always listed in insertion order. -/
theorem message_listing_tie_counterexample :
    isMessageListing dbTie 10
      [⟨2, 10, 2, "second", 5, none⟩, ⟨1, 10, 1, "first", 5, none⟩] ∧
    ([⟨2, 10, 2, "second", 5, none⟩, ⟨1, 10, 1, "first", 5, none⟩] : List Message) ≠
      [⟨1, 10, 1, "first", 5, none⟩, ⟨2, 10, 2, "second", 5, none⟩] := by
  constructor
  · constructor
    · decide
    · decide
  · decide

lemma markRead_twice (msgs : List Message) (mid r now now2 : Nat) :
    markRead (markRead msgs mid r now) mid r now2 = markRead msgs mid r now := by
  unfold markRead
  rw [List.map_map]
  refine List.map_congr_left ?_
  intro m _
  simp only [Function.comp_apply]
  by_cases h : (m.matchId == mid && m.sender != r && m.readAt == none) = true
  · rw [if_pos h, if_neg (by simp)]
  · rw [if_neg h, if_neg h]

/-- C9: `markRead` (the read pass of `fetchMessages`) sets `read_at` to
now on exactly the match's messages from the other side that were
unread, leaves every other row untouched, never clears an existing
`read_at`, and is idempotent: a second run (even at a later time)
changes nothing. -/
theorem markRead_spec (msgs : List Message) (mid reader now now2 : Nat) :
    List.Forall₂ (fun m m' =>
      (m.matchId = mid ∧ m.sender ≠ reader ∧ m.readAt = none →
          m' = { m with readAt := some now }) ∧
      (¬(m.matchId = mid ∧ m.sender ≠ reader ∧ m.readAt = none) → m' = m) ∧
      (∀ t, m.readAt = some t → m'.readAt = some t))
      msgs (markRead msgs mid reader now) ∧
    markRead (markRead msgs mid reader now) mid reader now2 =
      markRead msgs mid reader now := by
  refine ⟨?_, markRead_twice msgs mid reader now now2⟩
  unfold markRead
  rw [List.forall₂_map_right_iff, List.forall₂_same]
  intro m _
  refine ⟨?_, ?_, ?_⟩
  · rintro ⟨h1, h2, h3⟩
    rw [if_pos (by simp [h1, h2, h3])]
  · intro h
    rw [if_neg ?_]
    simp only [Bool.and_eq_true, beq_iff_eq, bne_iff_ne, not_and]
    intro h1 h2
    exact h ⟨h1.1, h1.2, h2⟩
  · intro t ht
    rw [if_neg (by simp [ht])]
    exact ht

/-- C9 witness: marking match 10 read for user 1 over a three-message
log, twice. -/
theorem markRead_spec_witness :
    List.Forall₂ (fun m m' =>
      (m.matchId = 10 ∧ m.sender ≠ 1 ∧ m.readAt = none →
          m' = { m with readAt := some 42 }) ∧
      (¬(m.matchId = 10 ∧ m.sender ≠ 1 ∧ m.readAt = none) → m' = m) ∧
      (∀ t, m.readAt = some t → m'.readAt = some t))
      [⟨1, 10, 2, "a", 1, none⟩, ⟨2, 10, 1, "b", 2, none⟩, ⟨3, 10, 2, "c", 3, some 9⟩]
      (markRead [⟨1, 10, 2, "a", 1, none⟩, ⟨2, 10, 1, "b", 2, none⟩,
        ⟨3, 10, 2, "c", 3, some 9⟩] 10 1 42) ∧
    markRead (markRead [⟨1, 10, 2, "a", 1, none⟩, ⟨2, 10, 1, "b", 2, none⟩,
        ⟨3, 10, 2, "c", 3, some 9⟩] 10 1 42) 10 1 99 =
      markRead [⟨1, 10, 2, "a", 1, none⟩, ⟨2, 10, 1, "b", 2, none⟩,
        ⟨3, 10, 2, "c", 3, some 9⟩] 10 1 42 :=
  markRead_spec [⟨1, 10, 2, "a", 1, none⟩, ⟨2, 10, 1, "b", 2, none⟩,
    ⟨3, 10, 2, "c", 3, some 9⟩] 10 1 42 99

/-- C10: a match's `unreadCount` for user `U` counts exactly the match's
messages not sent by `U` with null `read_at`: equivalently filtering the
match's unread messages down to foreign senders; appending `U`'s own
message never changes it; it is 0 when no such message exists; and it is
0 right after `markRead` ran for `U`. -/
theorem unreadCount_spec (db : DB) (mid uid now : Nat) (msg : Message) :
    unreadCount db mid uid =
      ((db.messages.filter (fun m => m.matchId == mid && m.readAt == none)).filter
        (fun m => m.sender != uid)).length ∧
    (msg.sender = uid →
      unreadCount { db with messages := db.messages ++ [msg] } mid uid =
        unreadCount db mid uid) ∧
    ((∀ m ∈ db.messages, m.matchId = mid → m.sender ≠ uid → m.readAt ≠ none) →
      unreadCount db mid uid = 0) ∧
    unreadCount { db with messages := markRead db.messages mid uid now } mid uid
      = 0 := by
  refine ⟨?_, ?_, ?_, ?_⟩
  · unfold unreadCount
    rw [List.filter_filter]
    congr 1
    refine List.filter_congr ?_
    intro m _
    cases m.matchId == mid <;> cases m.sender != uid <;> cases m.readAt == none
      <;> rfl
  · intro h
    unfold unreadCount
    rw [List.filter_append]
    have : List.filter (fun m =>
        m.matchId == mid && m.sender != uid && m.readAt == none) [msg] = [] := by
      rw [List.filter_eq_nil_iff]
      intro a ha
      rw [List.mem_singleton] at ha
      subst ha
      simp [h]
    rw [this]
    simp
  · intro h
    unfold unreadCount
    rw [List.length_eq_zero, List.filter_eq_nil_iff]
    intro m hm
    have := h m hm
    simp only [Bool.and_eq_true, beq_iff_eq, bne_iff_ne]
    tauto
  · unfold unreadCount
    rw [List.length_eq_zero, List.filter_eq_nil_iff]
    intro m' hm'
    obtain ⟨m, _, rfl⟩ := List.mem_map.mp hm'
    by_cases h : (m.matchId == mid && m.sender != uid && m.readAt == none) = true
    · rw [if_pos h]
      simp
    · rw [if_neg h]
      exact h

/-- Example database with a mixed message log: match 10 holds an unread
foreign message, an unread own message (for user 1) and an already-read
foreign message; match 11 holds an unrelated unread message. -/
def dbMsgs : DB :=
  ⟨[], [], [],
   [⟨1, 10, 2, "a", 1, none⟩, ⟨2, 10, 1, "b", 2, none⟩,
    ⟨3, 10, 2, "c", 3, some 9⟩, ⟨4, 11, 2, "d", 4, none⟩], 0, 5⟩

/-- C10 witness: the unread count of match 10 for user 1 over a mixed
message log, before and after `markRead`. -/
theorem unreadCount_spec_witness :
    unreadCount dbMsgs 10 1 =
      ((dbMsgs.messages.filter (fun m => m.matchId == 10 && m.readAt == none)).filter
        (fun m => m.sender != 1)).length ∧
    unreadCount { dbMsgs with
      messages := markRead dbMsgs.messages 10 1 42 } 10 1 = 0 := by
  have h := unreadCount_spec dbMsgs 10 1 42 ⟨9, 10, 1, "z", 7, none⟩
  exact ⟨h.1, h.2.2.2⟩

lemma loadedMatch_eq_some {db : DB} {uid mid : Nat} {m : MatchRow} :
    loadedMatch db uid mid = some m ↔
      findMatch db mid = some m ∧ isParticipant uid m = true := by
  unfold loadedMatch
  cases hf : findMatch db mid with
  | none => simp
  | some m0 =>
      dsimp only
      by_cases hp : isParticipant uid m0 = true
      · rw [if_pos hp]
        constructor
        · intro h
          injection h with h
          subst h
          exact ⟨rfl, hp⟩
        · intro ⟨h1, _⟩
          injection h1 with h1
          rw [h1]
      · rw [if_neg hp]
        constructor
        · intro h
          exact absurd h (by simp)
        · intro ⟨h1, h2⟩
          injection h1 with h1
          subst h1
          exact absurd h2 hp

/-- C4: `send` succeeds exactly when the content is non-blank after
trimming, the match row exists, the sender is a participant, and the
status is `Active`; in particular a participant's send to a `Pending`
or `Ended` match fails with the match-not-active error and appends
nothing. -/
theorem send_gating (db : DB) (uid mid : Nat) (content : String) (now : Nat) :
    ((∃ db', sendMessage db uid mid content now = Except.ok db') ↔
      (jsTrim content ≠ "" ∧ ∃ m, findMatch db mid = some m ∧
        isParticipant uid m = true ∧ m.status = Status.active)) ∧
    (∀ m, findMatch db mid = some m → isParticipant uid m = true →
      (m.status = Status.pending ∨ m.status = Status.ended) →
      jsTrim content ≠ "" →
      sendMessage db uid mid content now = Except.error SendError.matchNotActive ∧
      sendState db uid mid content now = db) := by
  constructor
  · constructor
    · rintro ⟨db', hdb'⟩
      unfold sendMessage at hdb'
      by_cases hc : jsTrim content = ""
      · rw [if_pos hc] at hdb'
        exact absurd hdb' (by simp)
      · rw [if_neg hc] at hdb'
        refine ⟨hc, ?_⟩
        cases hl : loadedMatch db uid mid with
        | none =>
            rw [hl] at hdb'
            exact absurd hdb' (by simp)
        | some m =>
            rw [hl] at hdb'
            dsimp only at hdb'
            obtain ⟨hf, hp⟩ := loadedMatch_eq_some.mp hl
            by_cases hs : m.status = Status.active
            · exact ⟨m, hf, hp, hs⟩
            · rw [if_neg hs] at hdb'
              exact absurd hdb' (by simp)
    · rintro ⟨hc, m, hf, hp, hs⟩
      have hl : loadedMatch db uid mid = some m := loadedMatch_eq_some.mpr ⟨hf, hp⟩
      have hok : sendMessage db uid mid content now =
          Except.ok { db with
            messages := db.messages ++
              [⟨db.nextMessageId, mid, uid, jsTrim content, now, none⟩],
            nextMessageId := db.nextMessageId + 1 } := by
        unfold sendMessage
        rw [if_neg hc, hl]
        dsimp only
        rw [if_pos hs]
      exact ⟨_, hok⟩
  · intro m hf hp hst hc
    have hna : m.status ≠ Status.active := by
      rcases hst with h | h <;> rw [h] <;> decide
    have hl : loadedMatch db uid mid = some m := loadedMatch_eq_some.mpr ⟨hf, hp⟩
    have he : sendMessage db uid mid content now =
        Except.error SendError.matchNotActive := by
      unfold sendMessage
      rw [if_neg hc, hl]
      dsimp only
      rw [if_neg hna]
    refine ⟨he, ?_⟩
    unfold sendState
    rw [he]

/-- C4 witness: in `dbTwo`, user 1 can send in the active match 10, and
the same send to the pending match 11 fails with the
match-not-active error. -/
theorem send_gating_witness :
    (∃ db', sendMessage dbTwo 1 10 "hi" 5 = Except.ok db') ∧
    sendMessage dbTwo 1 11 "hi" 5 = Except.error SendError.matchNotActive := by
  refine ⟨?_, ?_⟩
  · exact (send_gating dbTwo 1 10 "hi" 5).1.mpr
      ⟨by decide, ⟨10, 1, 2, Status.active⟩, rfl, rfl, rfl⟩
  · exact ((send_gating dbTwo 1 11 "hi" 5).2 ⟨11, 1, 3, Status.pending⟩ rfl rfl
      (Or.inl rfl) (by decide)).1

/-- C2: with no prior swipe between distinct users `A` and `B` and no
match row for the pair, `A`'s like creates no match; `B`'s reciprocal
like creates exactly one match row — canonicalised to
`(min A B, max A B)` with status `Pending` — and running the trigger
body again for the pair (in either orientation) is a no-op thanks to
the `ON CONFLICT DO NOTHING` clause. -/
theorem mutual_like_match_resolution (db : DB) (A B : Nat) (hAB : A ≠ B)
    (hsw : ∀ s ∈ db.swipes,
      ¬(s.swiper = A ∧ s.swiped = B) ∧ ¬(s.swiper = B ∧ s.swiped = A))
    (hm : ∀ m ∈ db.matchRows, ¬(m.user1 = min A B ∧ m.user2 = max A B)) :
    ∃ db1 db2 : DB,
      recordSwipe db ⟨A, B, Direction.like⟩ = Except.ok db1 ∧
      db1.matchRows = db.matchRows ∧
      recordSwipe db1 ⟨B, A, Direction.like⟩ = Except.ok db2 ∧
      db2.matchRows =
        db.matchRows ++ [⟨db.nextMatchId, min A B, max A B, Status.pending⟩] ∧
      (db2.matchRows.filter
        (fun m => m.user1 == min A B && m.user2 == max A B)).length = 1 ∧
      (∀ (sw : List Swipe) (n : Nat),
        checkAndCreateMatch sw db2.matchRows n ⟨A, B, Direction.like⟩ =
          Except.ok (db2.matchRows, n)) ∧
      (∀ (sw : List Swipe) (n : Nat),
        checkAndCreateMatch sw db2.matchRows n ⟨B, A, Direction.like⟩ =
          Except.ok (db2.matchRows, n)) := by
  have hlt : min A B < max A B := min_lt_max.mpr hAB
  have hA1 : (db.swipes.any (fun t => t.swiper == A && t.swiped == B)) = false := by
    rw [List.any_eq_false]
    intro t ht
    have h := (hsw t ht).1
    simp only [Bool.and_eq_true, beq_iff_eq]
    tauto
  have hrec1 : hasReciprocalLike (db.swipes ++ [⟨A, B, Direction.like⟩])
      ⟨A, B, Direction.like⟩ = false := by
    unfold hasReciprocalLike
    rw [List.any_eq_false]
    intro t ht
    rcases List.mem_append.mp ht with h | h
    · have h2 := (hsw t h).2
      simp only [Bool.and_eq_true, beq_iff_eq]
      tauto
    · simp only [List.mem_singleton] at h
      subst h
      simp only [Bool.and_eq_true, beq_iff_eq]
      intro hc
      exact hAB hc.1.1
  have hcc1 : checkAndCreateMatch (db.swipes ++ [⟨A, B, Direction.like⟩])
      db.matchRows db.nextMatchId ⟨A, B, Direction.like⟩ =
      Except.ok (db.matchRows, db.nextMatchId) := by
    unfold checkAndCreateMatch
    rw [if_neg (by simp), if_neg (by rw [hrec1]; simp)]
  have e1 : recordSwipe db ⟨A, B, Direction.like⟩ =
      Except.ok { db with swipes := db.swipes ++ [⟨A, B, Direction.like⟩] } := by
    simp only [recordSwipe, hA1, Bool.false_eq_true, if_false, hcc1]
  have hB1 : ((db.swipes ++ [(⟨A, B, Direction.like⟩ : Swipe)]).any
      (fun t => t.swiper == B && t.swiped == A)) = false := by
    rw [List.any_eq_false]
    intro t ht
    rcases List.mem_append.mp ht with h | h
    · have h2 := (hsw t h).2
      simp only [Bool.and_eq_true, beq_iff_eq]
      tauto
    · simp only [List.mem_singleton] at h
      subst h
      simp only [Bool.and_eq_true, beq_iff_eq]
      intro hc
      exact hAB hc.1
  have hrec2 : hasReciprocalLike
      ((db.swipes ++ [⟨A, B, Direction.like⟩]) ++ [⟨B, A, Direction.like⟩])
      ⟨B, A, Direction.like⟩ = true := by
    unfold hasReciprocalLike
    rw [List.any_eq_true]
    exact ⟨⟨A, B, Direction.like⟩, by simp, by simp⟩
  have hmex : matchExistsFor db.matchRows (min A B) (max A B) = false := by
    unfold matchExistsFor
    rw [List.any_eq_false]
    intro m hmm
    have := hm m hmm
    simp only [Bool.and_eq_true, beq_iff_eq]
    tauto
  have hcc2 : checkAndCreateMatch
      ((db.swipes ++ [⟨A, B, Direction.like⟩]) ++ [⟨B, A, Direction.like⟩])
      db.matchRows db.nextMatchId ⟨B, A, Direction.like⟩ =
      Except.ok (db.matchRows ++
        [⟨db.nextMatchId, min A B, max A B, Status.pending⟩],
        db.nextMatchId + 1) := by
    unfold checkAndCreateMatch
    rw [if_neg (by simp), if_pos hrec2]
    dsimp only
    rw [trigger_ordered_min B A, trigger_ordered_max B A, Nat.min_comm B A,
      Nat.max_comm B A, if_pos hlt, hmex]
    rw [if_neg (by simp)]
  have e2 : recordSwipe { db with swipes := db.swipes ++ [⟨A, B, Direction.like⟩] }
      ⟨B, A, Direction.like⟩ =
      Except.ok { db with
        swipes := (db.swipes ++ [⟨A, B, Direction.like⟩]) ++ [⟨B, A, Direction.like⟩],
        matchRows := db.matchRows ++
          [⟨db.nextMatchId, min A B, max A B, Status.pending⟩],
        nextMatchId := db.nextMatchId + 1 } := by
    simp only [recordSwipe, hB1, Bool.false_eq_true, if_false, hcc2]
  have hfil : ((db.matchRows ++
      [(⟨db.nextMatchId, min A B, max A B, Status.pending⟩ : MatchRow)]).filter
      (fun m => m.user1 == min A B && m.user2 == max A B)).length = 1 := by
    rw [List.filter_append]
    have h1 : db.matchRows.filter
        (fun m => m.user1 == min A B && m.user2 == max A B) = [] := by
      rw [List.filter_eq_nil_iff]
      intro m hmm
      have := hm m hmm
      simp only [Bool.and_eq_true, beq_iff_eq]
      tauto
    rw [h1]
    simp
  have hidemfor : ∀ (x y : Nat), x = A ∧ y = B ∨ x = B ∧ y = A →
      ∀ (sw : List Swipe) (n : Nat),
      checkAndCreateMatch sw (db.matchRows ++
        [(⟨db.nextMatchId, min A B, max A B, Status.pending⟩ : MatchRow)]) n
        ⟨x, y, Direction.like⟩ =
      Except.ok ((db.matchRows ++
        [(⟨db.nextMatchId, min A B, max A B, Status.pending⟩ : MatchRow)]), n) := by
    intro x y hxy sw n
    have hminxy : min x y = min A B := by
      rcases hxy with ⟨rfl, rfl⟩ | ⟨rfl, rfl⟩
      · rfl
      · exact Nat.min_comm x y
    have hmaxxy : max x y = max A B := by
      rcases hxy with ⟨rfl, rfl⟩ | ⟨rfl, rfl⟩
      · rfl
      · exact Nat.max_comm x y
    unfold checkAndCreateMatch
    rw [if_neg (by simp)]
    by_cases hr : hasReciprocalLike sw ⟨x, y, Direction.like⟩ = true
    · rw [if_pos hr]
      dsimp only
      rw [trigger_ordered_min x y, trigger_ordered_max x y, hminxy, hmaxxy,
        if_pos hlt]
      have hex : matchExistsFor (db.matchRows ++
          [⟨db.nextMatchId, min A B, max A B, Status.pending⟩])
          (min A B) (max A B) = true := by
        unfold matchExistsFor
        rw [List.any_eq_true]
        exact ⟨⟨db.nextMatchId, min A B, max A B, Status.pending⟩, by simp, by simp⟩
      rw [hex]
      simp
    · rw [if_neg hr]
  exact ⟨{ db with swipes := db.swipes ++ [⟨A, B, Direction.like⟩] },
    { db with
      swipes := (db.swipes ++ [⟨A, B, Direction.like⟩]) ++ [⟨B, A, Direction.like⟩],
      matchRows := db.matchRows ++
        [⟨db.nextMatchId, min A B, max A B, Status.pending⟩],
      nextMatchId := db.nextMatchId + 1 },
    e1, rfl, e2, rfl, hfil,
    hidemfor A B (Or.inl ⟨rfl, rfl⟩), hidemfor B A (Or.inr ⟨rfl, rfl⟩)⟩

/-- C2 witness: user 2 likes user 1 (no match), then user 1 likes back;
the single canonical match row `(1, 2, Pending)` with id 5 appears, and
re-running the trigger body is a no-op. -/
theorem mutual_like_match_resolution_witness :
    ∃ db1 db2 : DB,
      recordSwipe ⟨[], [], [], [], 5, 0⟩ ⟨2, 1, Direction.like⟩ = Except.ok db1 ∧
      db1.matchRows = [] ∧
      recordSwipe db1 ⟨1, 2, Direction.like⟩ = Except.ok db2 ∧
      db2.matchRows = [⟨5, 1, 2, Status.pending⟩] ∧
      (db2.matchRows.filter (fun m => m.user1 == 1 && m.user2 == 2)).length = 1 ∧
      (∀ (sw : List Swipe) (n : Nat),
        checkAndCreateMatch sw db2.matchRows n ⟨2, 1, Direction.like⟩ =
          Except.ok (db2.matchRows, n)) ∧
      (∀ (sw : List Swipe) (n : Nat),
        checkAndCreateMatch sw db2.matchRows n ⟨1, 2, Direction.like⟩ =
          Except.ok (db2.matchRows, n)) :=
  mutual_like_match_resolution ⟨[], [], [], [], 5, 0⟩ 2 1 (by decide)
    (by simp) (by simp)

/-- C7: a second swipe on the same ordered pair is rejected by the
`UNIQUE(swiper_id, swiped_id)` constraint regardless of its direction,
leaving the database (and in particular the original swipe row)
unchanged. -/
theorem duplicate_swipe_rejected (db db' : DB) (A B : Nat) (d1 d2 : Direction)
    (h : recordSwipe db ⟨A, B, d1⟩ = Except.ok db') :
    recordSwipe db' ⟨A, B, d2⟩ = Except.error SwipeError.duplicateSwipe ∧
    recordSwipeState db' ⟨A, B, d2⟩ = db' := by
  have hs : db'.swipes = db.swipes ++ [⟨A, B, d1⟩] := recordSwipe_ok_swipes h
  have hdup : (db'.swipes.any (fun t => t.swiper == A && t.swiped == B)) = true := by
    rw [hs]
    simp
  constructor
  · unfold recordSwipe
    rw [hdup]
    simp
  · unfold recordSwipeState recordSwipe
    rw [hdup]
    simp

/-- C7 witness: after user 1 likes user 2, re-swiping the same target
(with the other direction) fails with `duplicateSwipe` and leaves the
state unchanged. -/
theorem duplicate_swipe_rejected_witness :
    recordSwipe (recordSwipeState ⟨[], [], [], [], 0, 0⟩ ⟨1, 2, Direction.like⟩)
        ⟨1, 2, Direction.pass⟩ = Except.error SwipeError.duplicateSwipe ∧
    recordSwipeState (recordSwipeState ⟨[], [], [], [], 0, 0⟩ ⟨1, 2, Direction.like⟩)
        ⟨1, 2, Direction.pass⟩ =
      recordSwipeState ⟨[], [], [], [], 0, 0⟩ ⟨1, 2, Direction.like⟩ :=
  duplicate_swipe_rejected ⟨[], [], [], [], 0, 0⟩
    ⟨[], [⟨1, 2, Direction.like⟩], [], [], 0, 0⟩ 1 2 Direction.like Direction.pass rfl

/-- C6 (amended): the code has no `InvalidTarget` rejection of
self-swipes.  A self-`pass` is accepted and appends a swipe row; a
self-`like` does abort — but only because the match trigger's INSERT
violates the `ordered_users CHECK (user1_id < user2_id)` constraint of
`matches` — leaving the database unchanged. -/
theorem self_swipe_behaviour (db : DB) (U : Nat)
    (hnew : ∀ t ∈ db.swipes, ¬(t.swiper = U ∧ t.swiped = U)) :
    recordSwipe db ⟨U, U, Direction.pass⟩ =
      Except.ok { db with swipes := db.swipes ++ [⟨U, U, Direction.pass⟩] } ∧
    recordSwipe db ⟨U, U, Direction.like⟩ =
      Except.error SwipeError.orderedUsersCheckViolation ∧
    recordSwipeState db ⟨U, U, Direction.like⟩ = db := by
  have hnodup : (db.swipes.any (fun t => t.swiper == U && t.swiped == U)) = false := by
    simp only [List.any_eq_false]
    intro t ht
    have := hnew t ht
    simp only [Bool.and_eq_true, beq_iff_eq]
    tauto
  have hlike : recordSwipe db ⟨U, U, Direction.like⟩ =
      Except.error SwipeError.orderedUsersCheckViolation := by
    unfold recordSwipe
    rw [hnodup]
    have hrecip : hasReciprocalLike (db.swipes ++ [⟨U, U, Direction.like⟩])
        ⟨U, U, Direction.like⟩ = true := by
      unfold hasReciprocalLike
      simp
    simp [checkAndCreateMatch, hrecip]
  refine ⟨?_, hlike, ?_⟩
  · unfold recordSwipe
    rw [hnodup]
    simp [checkAndCreateMatch]
  · unfold recordSwipeState
    rw [hlike]

/-- C6 witness for the amended claim, at user 7 on an empty database. -/
theorem self_swipe_behaviour_witness :
    recordSwipe ⟨[], [], [], [], 0, 0⟩ ⟨7, 7, Direction.pass⟩ =
      Except.ok ⟨[], [⟨7, 7, Direction.pass⟩], [], [], 0, 0⟩ ∧
    recordSwipe ⟨[], [], [], [], 0, 0⟩ ⟨7, 7, Direction.like⟩ =
      Except.error SwipeError.orderedUsersCheckViolation ∧
    recordSwipeState ⟨[], [], [], [], 0, 0⟩ ⟨7, 7, Direction.like⟩ =
      ⟨[], [], [], [], 0, 0⟩ :=
  self_swipe_behaviour ⟨[], [], [], [], 0, 0⟩ 7 (by simp)

/-- C6 counterexample: the claim "a self-swipe is rejected and no swipe
row is created" is false — a self-`pass` by user 7 succeeds and creates
the row. -/
theorem self_swipe_counterexample :
    recordSwipe ⟨[], [], [], [], 0, 0⟩ ⟨7, 7, Direction.pass⟩ =
      Except.ok ⟨[], [⟨7, 7, Direction.pass⟩], [], [], 0, 0⟩ ∧
    (recordSwipeState ⟨[], [], [], [], 0, 0⟩ ⟨7, 7, Direction.pass⟩).swipes ≠ [] :=
  ⟨rfl, by decide⟩

end Mutual
